import Mathlib

/-
Shallow embedding of `dlms_cosem/protocol/hdlc/state.py`: the HDLC
connection-state machine for the client side of a DLMS/COSEM link.

The Python code mutates an `HdlcConnectionState` object in place and raises
`LocalProtocolError` on protocol violations.  Here every operation is a pure
function from a state to a pair of (state after the call, optional error):
the first component is the state exactly as the Python object is left when
the call returns or raises (mutations performed before a raise persist), and
the second component is `some e` when the Python code raises.

The module-level logger (`LOG.debug` on every successful transition) is
modelled as a `log` field accumulating the (old phase, new phase) events, so
that observability can be stated and shown not to influence behaviour.
-/

/-- The sentinel connection phases of `state.py` (NOT_CONNECTED .. NEED_DATA).
In the source each is an identity-compared sentinel object; here they form a
closed enumeration with structural equality. -/
inductive Phase where
  | NOT_CONNECTED
  | IDLE
  | AWAITING_RESPONSE
  | AWAITING_CONNECTION
  | SHOULD_SEND_READY_TO_RECEIVE
  | AWAITING_DISCONNECT
  | CLOSED
  | NEED_DATA
  deriving DecidableEq, Repr, Fintype

/-- The frame classes of `dlms_cosem.protocol.hdlc.frames` that appear as keys
of `HDLC_STATE_TRANSITIONS` (the transition table dispatches on `type(frame)`). -/
inductive FrameKind where
  | SetNormalResponseModeFrame
  | UnNumberedAcknowledgmentFrame
  | InformationFrame
  | SegmentedInformationRequestFrame
  | SegmentedInformationResponseFrame
  | DisconnectFrame
  | ReceiveReadyFrame
  deriving DecidableEq, Repr, Fintype

/-- The fields of an `InformationFrame` that `state.py` reads:
`send_sequence_number`, `receive_sequence_number` and `response_frame`. -/
structure InformationFrame where
  send_sequence_number : Nat
  receive_sequence_number : Nat
  response_frame : Bool
  deriving DecidableEq, Repr

/-- A decoded HDLC frame as consumed by `process_frame`: one of the seven
frame classes, with the sequencing fields present on `InformationFrame`. -/
inductive Frame where
  | setNormalResponseMode
  | unNumberedAcknowledgment
  | information (f : InformationFrame)
  | segmentedInformationRequest
  | segmentedInformationResponse
  | disconnect
  | receiveReady
  deriving DecidableEq, Repr

/-- `type(frame)` of the source: the frame class a concrete frame belongs to. -/
def Frame.kind : Frame → FrameKind
  | .setNormalResponseMode => .SetNormalResponseModeFrame
  | .unNumberedAcknowledgment => .UnNumberedAcknowledgmentFrame
  | .information _ => .InformationFrame
  | .segmentedInformationRequest => .SegmentedInformationRequestFrame
  | .segmentedInformationResponse => .SegmentedInformationResponseFrame
  | .disconnect => .DisconnectFrame
  | .receiveReady => .ReceiveReadyFrame

/-- `HDLC_STATE_TRANSITIONS` of `state.py`: the nested dict from current phase
and frame class to next phase.  A missing key (`KeyError` in the source) is
`none`. -/
def HDLC_STATE_TRANSITIONS : Phase → FrameKind → Option Phase
  | .NOT_CONNECTED, .SetNormalResponseModeFrame => some .AWAITING_CONNECTION
  | .AWAITING_CONNECTION, .UnNumberedAcknowledgmentFrame => some .IDLE
  | .IDLE, .InformationFrame => some .AWAITING_RESPONSE
  | .IDLE, .SegmentedInformationRequestFrame => some .AWAITING_RESPONSE
  | .IDLE, .DisconnectFrame => some .AWAITING_DISCONNECT
  | .AWAITING_RESPONSE, .InformationFrame => some .IDLE
  | .AWAITING_RESPONSE, .SegmentedInformationResponseFrame =>
      some .SHOULD_SEND_READY_TO_RECEIVE
  | .SHOULD_SEND_READY_TO_RECEIVE, .ReceiveReadyFrame => some .AWAITING_RESPONSE
  | .AWAITING_DISCONNECT, .UnNumberedAcknowledgmentFrame => some .NOT_CONNECTED
  | _, _ => none

/-- The `LocalProtocolError` raise sites of `state.py`, distinguished by the
data their messages carry: the two sequence-mismatch raises inside
`_process_information_frame` (observed number and current counter), and the
missing-transition raise inside `_transition_state` (frame type and current
state). -/
inductive LocalProtocolError where
  | sendSequenceMismatch (observed current : Nat)
  | receiveSequenceMismatch (observed current : Nat)
  | illegalTransition (frameType : FrameKind) (state : Phase)
  deriving DecidableEq, Repr

/-- `HdlcConnectionState` of `state.py`: current phase plus the four modulo-8
sequence counters, with the attrs defaults (NOT_CONNECTED, all counters 0).
The extra `log` field records the `LOG.debug` events emitted on successful
transitions; it corresponds to the module-level logger, not to a Python
attribute. -/
structure HdlcConnectionState where
  current_state : Phase := .NOT_CONNECTED
  client_ssn : Nat := 0
  client_rsn : Nat := 0
  server_ssn : Nat := 0
  server_rsn : Nat := 0
  log : List (Phase × Phase) := []
  deriving DecidableEq, Repr

/-- `_increment_server_rsn`: add one, reset to 0 when the result exceeds 7. -/
def _increment_server_rsn (s : HdlcConnectionState) : HdlcConnectionState :=
  let v := s.server_rsn + 1
  { s with server_rsn := if v > 7 then 0 else v }

/-- `_increment_server_ssn`: add one, reset to 0 when the result exceeds 7. -/
def _increment_server_ssn (s : HdlcConnectionState) : HdlcConnectionState :=
  let v := s.server_ssn + 1
  { s with server_ssn := if v > 7 then 0 else v }

/-- `_increment_client_rsn`: add one, reset to 0 when the result exceeds 7. -/
def _increment_client_rsn (s : HdlcConnectionState) : HdlcConnectionState :=
  let v := s.client_rsn + 1
  { s with client_rsn := if v > 7 then 0 else v }

/-- `_increment_client_ssn`: add one, reset to 0 when the result exceeds 7. -/
def _increment_client_ssn (s : HdlcConnectionState) : HdlcConnectionState :=
  let v := s.client_ssn + 1
  { s with client_ssn := if v > 7 then 0 else v }

/-- The single-counter arithmetic shared by the four increment methods:
`n += 1; if n > 7: n = 0`.  Used in theorem statements. -/
def wrapInc (n : Nat) : Nat :=
  let v := n + 1
  if v > 7 then 0 else v

/-- `_process_information_frame`: branch on `response_frame`; compare the
frame's numbers against the client pair (response) or the server pair
(request), raising on the first mismatch with the state untouched; on a full
match increment the two counters of the source's exact choice and order. -/
def _process_information_frame (s : HdlcConnectionState) (frame : InformationFrame) :
    HdlcConnectionState × Option LocalProtocolError :=
  if frame.response_frame then
    if ¬ (frame.send_sequence_number = s.client_ssn) then
      (s, some (.sendSequenceMismatch frame.send_sequence_number s.client_ssn))
    else if ¬ (frame.receive_sequence_number = s.client_rsn) then
      (s, some (.receiveSequenceMismatch frame.receive_sequence_number s.client_rsn))
    else
      (_increment_client_ssn (_increment_server_rsn s), none)
  else
    if ¬ (frame.send_sequence_number = s.server_ssn) then
      (s, some (.sendSequenceMismatch frame.send_sequence_number s.server_ssn))
    else if ¬ (frame.receive_sequence_number = s.server_rsn) then
      (s, some (.receiveSequenceMismatch frame.receive_sequence_number s.server_rsn))
    else
      (_increment_client_rsn (_increment_server_ssn s), none)

/-- `_transition_state`: look up (current phase, frame type) in the table;
a missing entry raises with the state untouched; a hit commits the new phase
and logs the transition. -/
def _transition_state (s : HdlcConnectionState) (frame_type : FrameKind) :
    HdlcConnectionState × Option LocalProtocolError :=
  match HDLC_STATE_TRANSITIONS s.current_state frame_type with
  | none => (s, some (.illegalTransition frame_type s.current_state))
  | some new_state =>
      ({ s with current_state := new_state,
                log := s.log ++ [(s.current_state, new_state)] }, none)

/-- `process_frame`: for an `InformationFrame` run sequence validation first
(its counter mutations persist even if what follows raises), then always run
the table transition on `type(frame)`. -/
def process_frame (s : HdlcConnectionState) (frame : Frame) :
    HdlcConnectionState × Option LocalProtocolError :=
  match frame with
  | .information f =>
      match _process_information_frame s f with
      | (s1, none) => _transition_state s1 .InformationFrame
      | (s1, some e) => (s1, some e)
  | f => _transition_state s f.kind

/-- Whether a frame passes the sequence validation of
`_process_information_frame` against state `s`; non-Information frames are
not validated at all and count as passing. -/
def frameSeqOk (s : HdlcConnectionState) : Frame → Bool
  | .information f =>
      if f.response_frame then
        f.send_sequence_number == s.client_ssn &&
          f.receive_sequence_number == s.client_rsn
      else
        f.send_sequence_number == s.server_ssn &&
          f.receive_sequence_number == s.server_rsn
  | _ => true

/-- The nine rows of the spec's transition table (§4.1), written down from the
spec's words with the spec's frame-kind names mapped to the frame classes
(SetConnection ↦ SetNormalResponseModeFrame, ConnectionAck ↦
UnNumberedAcknowledgmentFrame, ...), for comparison with
`HDLC_STATE_TRANSITIONS`. -/
def specTransitionRows : List (Phase × FrameKind × Phase) :=
  [ (.NOT_CONNECTED, .SetNormalResponseModeFrame, .AWAITING_CONNECTION),
    (.AWAITING_CONNECTION, .UnNumberedAcknowledgmentFrame, .IDLE),
    (.IDLE, .InformationFrame, .AWAITING_RESPONSE),
    (.IDLE, .SegmentedInformationRequestFrame, .AWAITING_RESPONSE),
    (.IDLE, .DisconnectFrame, .AWAITING_DISCONNECT),
    (.AWAITING_RESPONSE, .InformationFrame, .IDLE),
    (.AWAITING_RESPONSE, .SegmentedInformationResponseFrame,
      .SHOULD_SEND_READY_TO_RECEIVE),
    (.SHOULD_SEND_READY_TO_RECEIVE, .ReceiveReadyFrame, .AWAITING_RESPONSE),
    (.AWAITING_DISCONNECT, .UnNumberedAcknowledgmentFrame, .NOT_CONNECTED) ]

/-- All four counters lie in [0,7]. -/
def countersBounded (s : HdlcConnectionState) : Prop :=
  s.client_ssn ≤ 7 ∧ s.client_rsn ≤ 7 ∧ s.server_ssn ≤ 7 ∧ s.server_rsn ≤ 7

/-- Equality of the protocol-relevant observables: phase and the four
counters, ignoring the accumulated log. -/
def obsEq (s t : HdlcConnectionState) : Prop :=
  s.current_state = t.current_state ∧
  s.client_ssn = t.client_ssn ∧ s.client_rsn = t.client_rsn ∧
  s.server_ssn = t.server_ssn ∧ s.server_rsn = t.server_rsn

theorem wrapInc_le (n : Nat) : wrapInc n ≤ 7 := by
  simp only [wrapInc]
  split <;> omega

theorem increment_pair_response (s : HdlcConnectionState) :
    _increment_client_ssn (_increment_server_rsn s) =
      { s with server_rsn := wrapInc s.server_rsn, client_ssn := wrapInc s.client_ssn } :=
  rfl

theorem increment_pair_request (s : HdlcConnectionState) :
    _increment_client_rsn (_increment_server_ssn s) =
      { s with server_ssn := wrapInc s.server_ssn, client_rsn := wrapInc s.client_rsn } :=
  rfl

theorem transition_state_of_none {s : HdlcConnectionState} {ft : FrameKind}
    (h : HDLC_STATE_TRANSITIONS s.current_state ft = none) :
    _transition_state s ft = (s, some (.illegalTransition ft s.current_state)) := by
  simp [_transition_state, h]

theorem transition_state_cases (s : HdlcConnectionState) (ft : FrameKind) :
    (HDLC_STATE_TRANSITIONS s.current_state ft = none ∧
      _transition_state s ft = (s, some (.illegalTransition ft s.current_state))) ∨
    (∃ p, HDLC_STATE_TRANSITIONS s.current_state ft = some p ∧
      _transition_state s ft =
        ({ s with current_state := p, log := s.log ++ [(s.current_state, p)] }, none)) := by
  cases h : HDLC_STATE_TRANSITIONS s.current_state ft with
  | none => exact Or.inl ⟨rfl, transition_state_of_none h⟩
  | some p => exact Or.inr ⟨p, rfl, by simp [_transition_state, h]⟩

theorem pif_ok_response {s : HdlcConnectionState} {f : InformationFrame}
    (hr : f.response_frame = true)
    (h1 : f.send_sequence_number = s.client_ssn)
    (h2 : f.receive_sequence_number = s.client_rsn) :
    _process_information_frame s f =
      ({ s with server_rsn := wrapInc s.server_rsn,
                client_ssn := wrapInc s.client_ssn }, none) := by
  rw [← increment_pair_response]
  simp [_process_information_frame, hr, h1, h2]

theorem pif_ok_request {s : HdlcConnectionState} {f : InformationFrame}
    (hr : f.response_frame = false)
    (h1 : f.send_sequence_number = s.server_ssn)
    (h2 : f.receive_sequence_number = s.server_rsn) :
    _process_information_frame s f =
      ({ s with server_ssn := wrapInc s.server_ssn,
                client_rsn := wrapInc s.client_rsn }, none) := by
  rw [← increment_pair_request]
  simp [_process_information_frame, hr, h1, h2]

theorem frameSeqOk_information {s : HdlcConnectionState} {f : InformationFrame}
    (h : frameSeqOk s (Frame.information f) = true) :
    (f.response_frame = true →
      f.send_sequence_number = s.client_ssn ∧ f.receive_sequence_number = s.client_rsn) ∧
    (f.response_frame = false →
      f.send_sequence_number = s.server_ssn ∧ f.receive_sequence_number = s.server_rsn) := by
  obtain ⟨ssn, rsn, resp⟩ := f
  cases resp <;> simp_all [frameSeqOk]

/-- Claim C2: for every state and every Information frame with
`response_frame = true`, matching sequence numbers (against the client pair)
make validation succeed and increment `server_rsn` then `client_ssn`, while a
mismatch makes `process_frame` fail with a sequence-mismatch error and leaves
the whole state unchanged. -/
theorem C2_response_validation (s : HdlcConnectionState) (f : InformationFrame)
    (hr : f.response_frame = true) :
    (f.send_sequence_number = s.client_ssn ∧ f.receive_sequence_number = s.client_rsn →
      _process_information_frame s f =
        ({ s with server_rsn := wrapInc s.server_rsn,
                  client_ssn := wrapInc s.client_ssn }, none)) ∧
    (¬ (f.send_sequence_number = s.client_ssn ∧ f.receive_sequence_number = s.client_rsn) →
      (process_frame s (Frame.information f)).1 = s ∧
      ((process_frame s (Frame.information f)).2 =
          some (LocalProtocolError.sendSequenceMismatch f.send_sequence_number s.client_ssn) ∨
       (process_frame s (Frame.information f)).2 =
          some (LocalProtocolError.receiveSequenceMismatch
            f.receive_sequence_number s.client_rsn))) := by
  constructor
  · rintro ⟨h1, h2⟩
    exact pif_ok_response hr h1 h2
  · intro hmm
    by_cases h1 : f.send_sequence_number = s.client_ssn
    · have h2 : ¬ f.receive_sequence_number = s.client_rsn := fun h2 => hmm ⟨h1, h2⟩
      refine ⟨?_, Or.inr ?_⟩ <;>
        simp [process_frame, _process_information_frame, hr, h1, h2]
    · refine ⟨?_, Or.inl ?_⟩ <;>
        simp [process_frame, _process_information_frame, hr, h1]

theorem C2_response_validation_witness :
    _process_information_frame {} ⟨0, 0, true⟩ =
      ({ ({} : HdlcConnectionState) with
          server_rsn := wrapInc (({} : HdlcConnectionState).server_rsn),
          client_ssn := wrapInc (({} : HdlcConnectionState).client_ssn) }, none) :=
  (C2_response_validation {} ⟨0, 0, true⟩ rfl).1 ⟨rfl, rfl⟩

/-- Claim C3: for every state and every Information frame with
`response_frame = false`, matching sequence numbers (against the server pair)
make validation succeed and increment `server_ssn` then `client_rsn`, while a
mismatch makes `process_frame` fail with a sequence-mismatch error and leaves
the whole state unchanged. -/
theorem C3_request_validation (s : HdlcConnectionState) (f : InformationFrame)
    (hr : f.response_frame = false) :
    (f.send_sequence_number = s.server_ssn ∧ f.receive_sequence_number = s.server_rsn →
      _process_information_frame s f =
        ({ s with server_ssn := wrapInc s.server_ssn,
                  client_rsn := wrapInc s.client_rsn }, none)) ∧
    (¬ (f.send_sequence_number = s.server_ssn ∧ f.receive_sequence_number = s.server_rsn) →
      (process_frame s (Frame.information f)).1 = s ∧
      ((process_frame s (Frame.information f)).2 =
          some (LocalProtocolError.sendSequenceMismatch f.send_sequence_number s.server_ssn) ∨
       (process_frame s (Frame.information f)).2 =
          some (LocalProtocolError.receiveSequenceMismatch
            f.receive_sequence_number s.server_rsn))) := by
  constructor
  · rintro ⟨h1, h2⟩
    exact pif_ok_request hr h1 h2
  · intro hmm
    by_cases h1 : f.send_sequence_number = s.server_ssn
    · have h2 : ¬ f.receive_sequence_number = s.server_rsn := fun h2 => hmm ⟨h1, h2⟩
      refine ⟨?_, Or.inr ?_⟩ <;>
        simp [process_frame, _process_information_frame, hr, h1, h2]
    · refine ⟨?_, Or.inl ?_⟩ <;>
        simp [process_frame, _process_information_frame, hr, h1]

theorem C3_request_validation_witness :
    _process_information_frame {} ⟨0, 0, false⟩ =
      ({ ({} : HdlcConnectionState) with
          server_ssn := wrapInc (({} : HdlcConnectionState).server_ssn),
          client_rsn := wrapInc (({} : HdlcConnectionState).client_rsn) }, none) :=
  (C3_request_validation {} ⟨0, 0, false⟩ rfl).1 ⟨rfl, rfl⟩

/-- Claim C4: an Information frame that passes sequence validation but whose
(phase, InformationFrame) pair is not in the table makes `process_frame` fail
with the missing-transition error, phase unchanged, while the two counters
incremented during validation stay incremented (no rollback). -/
theorem C4_counters_survive_illegal_transition (s : HdlcConnectionState)
    (f : InformationFrame)
    (hv : frameSeqOk s (Frame.information f) = true)
    (ht : HDLC_STATE_TRANSITIONS s.current_state FrameKind.InformationFrame = none) :
    (process_frame s (Frame.information f)).2 =
      some (LocalProtocolError.illegalTransition FrameKind.InformationFrame
        s.current_state) ∧
    (process_frame s (Frame.information f)).1.current_state = s.current_state ∧
    (f.response_frame = true →
      (process_frame s (Frame.information f)).1.server_rsn = wrapInc s.server_rsn ∧
      (process_frame s (Frame.information f)).1.client_ssn = wrapInc s.client_ssn) ∧
    (f.response_frame = false →
      (process_frame s (Frame.information f)).1.server_ssn = wrapInc s.server_ssn ∧
      (process_frame s (Frame.information f)).1.client_rsn = wrapInc s.client_rsn) := by
  have hv' := frameSeqOk_information hv
  obtain ⟨ssn, rsn, resp⟩ := f
  cases resp
  · obtain ⟨h1, h2⟩ := hv'.2 rfl
    have hok := pif_ok_request (s := s) (f := ⟨ssn, rsn, false⟩) rfl h1 h2
    simp [process_frame, hok, _transition_state, ht]
  · obtain ⟨h1, h2⟩ := hv'.1 rfl
    have hok := pif_ok_response (s := s) (f := ⟨ssn, rsn, true⟩) rfl h1 h2
    simp [process_frame, hok, _transition_state, ht]

theorem C4_counters_survive_illegal_transition_witness :
    (process_frame {} (Frame.information ⟨0, 0, false⟩)).2 =
      some (LocalProtocolError.illegalTransition FrameKind.InformationFrame
        Phase.NOT_CONNECTED) ∧
    (process_frame {} (Frame.information ⟨0, 0, false⟩)).1.server_ssn = wrapInc 0 ∧
    (process_frame {} (Frame.information ⟨0, 0, false⟩)).1.client_rsn = wrapInc 0 := by
  have h := C4_counters_survive_illegal_transition {} ⟨0, 0, false⟩ (by decide) (by decide)
  exact ⟨h.1, (h.2.2.2 rfl).1, (h.2.2.2 rfl).2⟩

/-- Claim C1 counterexample: (NOT_CONNECTED, InformationFrame) is not in the
table, yet `process_frame` on an Information frame with a mismatched send
sequence number raises the send-sequence-mismatch error, not the
illegal-transition error the claim requires for every frame of that kind. -/
theorem C1_untabulated_pair_counterexample :
    HDLC_STATE_TRANSITIONS Phase.NOT_CONNECTED FrameKind.InformationFrame = none ∧
    process_frame {} (Frame.information ⟨1, 0, false⟩) =
      ({}, some (LocalProtocolError.sendSequenceMismatch 1 0)) ∧
    some (LocalProtocolError.sendSequenceMismatch 1 0) ≠
      some (LocalProtocolError.illegalTransition FrameKind.InformationFrame
        Phase.NOT_CONNECTED) := by
  decide

theorem pif_cases (s : HdlcConnectionState) (g : InformationFrame) :
    (frameSeqOk s (Frame.information g) = true ∧
      ((g.response_frame = true ∧
        _process_information_frame s g =
          ({ s with server_rsn := wrapInc s.server_rsn,
                    client_ssn := wrapInc s.client_ssn }, none)) ∨
       (g.response_frame = false ∧
        _process_information_frame s g =
          ({ s with server_ssn := wrapInc s.server_ssn,
                    client_rsn := wrapInc s.client_rsn }, none)))) ∨
    (frameSeqOk s (Frame.information g) = false ∧
      ∃ e, _process_information_frame s g = (s, some e)) := by
  obtain ⟨ssn, rsn, resp⟩ := g
  cases resp
  · by_cases h1 : ssn = s.server_ssn
    · by_cases h2 : rsn = s.server_rsn
      · exact Or.inl ⟨by simp [frameSeqOk, h1, h2],
          Or.inr ⟨rfl, pif_ok_request rfl h1 h2⟩⟩
      · exact Or.inr ⟨by simp [frameSeqOk, h1, h2],
          LocalProtocolError.receiveSequenceMismatch rsn s.server_rsn,
          by simp [_process_information_frame, h1, h2]⟩
    · exact Or.inr ⟨by simp [frameSeqOk, h1],
        LocalProtocolError.sendSequenceMismatch ssn s.server_ssn,
        by simp [_process_information_frame, h1]⟩
  · by_cases h1 : ssn = s.client_ssn
    · by_cases h2 : rsn = s.client_rsn
      · exact Or.inl ⟨by simp [frameSeqOk, h1, h2],
          Or.inl ⟨rfl, pif_ok_response rfl h1 h2⟩⟩
      · exact Or.inr ⟨by simp [frameSeqOk, h1, h2],
          LocalProtocolError.receiveSequenceMismatch rsn s.client_rsn,
          by simp [_process_information_frame, h1, h2]⟩
    · exact Or.inr ⟨by simp [frameSeqOk, h1],
        LocalProtocolError.sendSequenceMismatch ssn s.client_ssn,
        by simp [_process_information_frame, h1]⟩

/-- Claim C1 (amended): for every (phase, frame kind) pair not in the table,
`process_frame` with a frame of that kind fails and leaves the phase
unchanged; the error is the illegal-transition error carrying the current
phase and the frame kind whenever the frame reaches the table lookup (any
non-Information frame, or an Information frame passing sequence validation —
a mismatched Information frame fails earlier with a sequence-mismatch error);
and the table holds exactly the nine listed (phase, kind, next phase) rows. -/
theorem C1_untabulated_pairs_fail (s : HdlcConnectionState) (f : Frame)
    (h : HDLC_STATE_TRANSITIONS s.current_state (Frame.kind f) = none) :
    (process_frame s f).2 ≠ none ∧
    (process_frame s f).1.current_state = s.current_state ∧
    (frameSeqOk s f = true →
      (process_frame s f).2 =
        some (LocalProtocolError.illegalTransition (Frame.kind f) s.current_state)) ∧
    (∀ p k q, HDLC_STATE_TRANSITIONS p k = some q ↔ (p, k, q) ∈ specTransitionRows) := by
  refine ⟨?_, ?_, ?_, by decide⟩ <;>
  cases f with
  | information g =>
      rcases pif_cases s g with ⟨hseq, hshape⟩ | ⟨hseq, e, herr⟩
      · obtain ⟨S1, heq, hcs⟩ :
            ∃ S1 : HdlcConnectionState, _process_information_frame s g = (S1, none) ∧
              S1.current_state = s.current_state := by
          rcases hshape with ⟨_, heq⟩ | ⟨_, heq⟩ <;> exact ⟨_, heq, rfl⟩
        have ht : HDLC_STATE_TRANSITIONS S1.current_state FrameKind.InformationFrame
            = none := by rw [hcs]; simpa [Frame.kind] using h
        have hp : process_frame s (Frame.information g) =
            (S1, some (.illegalTransition FrameKind.InformationFrame S1.current_state)) := by
          simp [process_frame, heq, transition_state_of_none ht]
        simp [hp, hcs, Frame.kind]
      · have hp : process_frame s (Frame.information g) = (s, some e) := by
          simp [process_frame, herr]
        simp [hp, hseq]
  | setNormalResponseMode =>
      simp [process_frame, transition_state_of_none h, Frame.kind] at h ⊢ ;
        simp [transition_state_of_none h]
  | unNumberedAcknowledgment =>
      simp [process_frame, transition_state_of_none h, Frame.kind] at h ⊢ ;
        simp [transition_state_of_none h]
  | segmentedInformationRequest =>
      simp [process_frame, transition_state_of_none h, Frame.kind] at h ⊢ ;
        simp [transition_state_of_none h]
  | segmentedInformationResponse =>
      simp [process_frame, transition_state_of_none h, Frame.kind] at h ⊢ ;
        simp [transition_state_of_none h]
  | disconnect =>
      simp [process_frame, transition_state_of_none h, Frame.kind] at h ⊢ ;
        simp [transition_state_of_none h]
  | receiveReady =>
      simp [process_frame, transition_state_of_none h, Frame.kind] at h ⊢ ;
        simp [transition_state_of_none h]

theorem C1_untabulated_pairs_fail_witness :
    (process_frame {} Frame.receiveReady).2 ≠ none ∧
    (process_frame {} Frame.receiveReady).1.current_state =
      ({} : HdlcConnectionState).current_state :=
  ⟨(C1_untabulated_pairs_fail {} Frame.receiveReady (by decide)).1,
   (C1_untabulated_pairs_fail {} Frame.receiveReady (by decide)).2.1⟩

/-- Claim C5 counterexample: from IDLE with all counters 0, a request
Information frame (send 0, receive 0) succeeds, yet neither the client pair
(`client_ssn`, `client_rsn`) nor the server pair (`server_ssn`, `server_rsn`)
is the advanced pair: the call advances `server_ssn` and `client_rsn`,
leaving `client_ssn` and `server_rsn` untouched. -/
theorem C5_pairing_counterexample :
    (process_frame { current_state := Phase.IDLE }
        (Frame.information ⟨0, 0, false⟩)).2 = none ∧
    (process_frame { current_state := Phase.IDLE }
        (Frame.information ⟨0, 0, false⟩)).1.client_ssn = 0 ∧
    (process_frame { current_state := Phase.IDLE }
        (Frame.information ⟨0, 0, false⟩)).1.client_rsn = 1 ∧
    (process_frame { current_state := Phase.IDLE }
        (Frame.information ⟨0, 0, false⟩)).1.server_ssn = 1 ∧
    (process_frame { current_state := Phase.IDLE }
        (Frame.information ⟨0, 0, false⟩)).1.server_rsn = 0 ∧
    ¬ (((process_frame { current_state := Phase.IDLE }
          (Frame.information ⟨0, 0, false⟩)).1.client_ssn = 1 ∧
        (process_frame { current_state := Phase.IDLE }
          (Frame.information ⟨0, 0, false⟩)).1.client_rsn = 1 ∧
        (process_frame { current_state := Phase.IDLE }
          (Frame.information ⟨0, 0, false⟩)).1.server_ssn = 0 ∧
        (process_frame { current_state := Phase.IDLE }
          (Frame.information ⟨0, 0, false⟩)).1.server_rsn = 0) ∨
       ((process_frame { current_state := Phase.IDLE }
          (Frame.information ⟨0, 0, false⟩)).1.server_ssn = 1 ∧
        (process_frame { current_state := Phase.IDLE }
          (Frame.information ⟨0, 0, false⟩)).1.server_rsn = 1 ∧
        (process_frame { current_state := Phase.IDLE }
          (Frame.information ⟨0, 0, false⟩)).1.client_ssn = 0 ∧
        (process_frame { current_state := Phase.IDLE }
          (Frame.information ⟨0, 0, false⟩)).1.client_rsn = 0)) := by
  decide

/-- Claim C5 (amended): for every successful `process_frame` call on an
Information frame, exactly one crossed counter pair is advanced —
(`server_rsn`, `client_ssn`) when `response_frame` is true, or
(`server_ssn`, `client_rsn`) when it is false — with the other two counters
left unchanged. -/
theorem C5_crossed_pair_advanced (s : HdlcConnectionState) (g : InformationFrame)
    (h : (process_frame s (Frame.information g)).2 = none) :
    (g.response_frame = true →
      (process_frame s (Frame.information g)).1.server_rsn = wrapInc s.server_rsn ∧
      (process_frame s (Frame.information g)).1.client_ssn = wrapInc s.client_ssn ∧
      (process_frame s (Frame.information g)).1.server_ssn = s.server_ssn ∧
      (process_frame s (Frame.information g)).1.client_rsn = s.client_rsn) ∧
    (g.response_frame = false →
      (process_frame s (Frame.information g)).1.server_ssn = wrapInc s.server_ssn ∧
      (process_frame s (Frame.information g)).1.client_rsn = wrapInc s.client_rsn ∧
      (process_frame s (Frame.information g)).1.server_rsn = s.server_rsn ∧
      (process_frame s (Frame.information g)).1.client_ssn = s.client_ssn) := by
  rcases pif_cases s g with ⟨hseq, hshape⟩ | ⟨hseq, e, herr⟩
  · rcases hshape with ⟨hresp, heq⟩ | ⟨hresp, heq⟩ <;>
    · rcases transition_state_cases
          ((_process_information_frame s g).1) FrameKind.InformationFrame with
        ⟨_, htr⟩ | ⟨p, _, htr⟩ <;>
        simp [process_frame, heq, hresp] at htr ⊢ <;>
        simp [htr, hresp]
  · have hp : process_frame s (Frame.information g) = (s, some e) := by
      simp [process_frame, herr]
    rw [hp] at h
    simp at h

theorem C5_crossed_pair_advanced_witness :
    (process_frame { current_state := Phase.IDLE }
        (Frame.information ⟨0, 0, false⟩)).1.server_ssn = wrapInc 0 ∧
    (process_frame { current_state := Phase.IDLE }
        (Frame.information ⟨0, 0, false⟩)).1.client_rsn = wrapInc 0 ∧
    (process_frame { current_state := Phase.IDLE }
        (Frame.information ⟨0, 0, false⟩)).1.server_rsn = 0 ∧
    (process_frame { current_state := Phase.IDLE }
        (Frame.information ⟨0, 0, false⟩)).1.client_ssn = 0 :=
  (C5_crossed_pair_advanced { current_state := Phase.IDLE } ⟨0, 0, false⟩
    (by decide)).2 rfl

/-- Claim C6 counterexample: after SetConnection, ConnectionAck and a request
Information frame (send 0, receive 0) from the default state, the call
succeeds and reaches AWAITING_RESPONSE, but `server_rsn` and `client_ssn`
are still 0 — not 1 as the claim asserts (the code advanced `server_ssn` and
`client_rsn` instead). -/
theorem C6_happy_path_counterexample :
    (process_frame (process_frame (process_frame {}
        Frame.setNormalResponseMode).1 Frame.unNumberedAcknowledgment).1
        (Frame.information ⟨0, 0, false⟩)).2 = none ∧
    (process_frame (process_frame (process_frame {}
        Frame.setNormalResponseMode).1 Frame.unNumberedAcknowledgment).1
        (Frame.information ⟨0, 0, false⟩)).1.current_state =
      Phase.AWAITING_RESPONSE ∧
    (process_frame (process_frame (process_frame {}
        Frame.setNormalResponseMode).1 Frame.unNumberedAcknowledgment).1
        (Frame.information ⟨0, 0, false⟩)).1.server_rsn = 0 ∧
    (process_frame (process_frame (process_frame {}
        Frame.setNormalResponseMode).1 Frame.unNumberedAcknowledgment).1
        (Frame.information ⟨0, 0, false⟩)).1.client_ssn = 0 := by
  decide

/-- Claim C6 (amended): starting from the default state, SetConnection yields
AWAITING_CONNECTION, then ConnectionAck yields IDLE, then a request
Information frame (send 0, receive 0) succeeds and yields AWAITING_RESPONSE
with `server_ssn` = 1 and `client_rsn` = 1 (and `server_rsn` = `client_ssn`
= 0). -/
theorem C6_happy_path :
    (process_frame {} Frame.setNormalResponseMode).2 = none ∧
    (process_frame {} Frame.setNormalResponseMode).1.current_state =
      Phase.AWAITING_CONNECTION ∧
    (process_frame (process_frame {} Frame.setNormalResponseMode).1
        Frame.unNumberedAcknowledgment).2 = none ∧
    (process_frame (process_frame {} Frame.setNormalResponseMode).1
        Frame.unNumberedAcknowledgment).1.current_state = Phase.IDLE ∧
    (process_frame (process_frame (process_frame {}
        Frame.setNormalResponseMode).1 Frame.unNumberedAcknowledgment).1
        (Frame.information ⟨0, 0, false⟩)) =
      ({ current_state := Phase.AWAITING_RESPONSE,
         client_ssn := 0, client_rsn := 1, server_ssn := 1, server_rsn := 0,
         log := [(Phase.NOT_CONNECTED, Phase.AWAITING_CONNECTION),
                 (Phase.AWAITING_CONNECTION, Phase.IDLE),
                 (Phase.IDLE, Phase.AWAITING_RESPONSE)] }, none) := by
  decide

/-- Claim C7 counterexample: from the default state (NOT_CONNECTED, all
counters 0), a request Information frame with matching numbers is rejected
with the illegal-transition error, yet the first rejected call mutates the
state (`server_ssn` and `client_rsn` advance to 1), and a second identical
call yields a different error (a send-sequence mismatch). -/
theorem C7_rejection_counterexample :
    (process_frame {} (Frame.information ⟨0, 0, false⟩)).2 =
      some (LocalProtocolError.illegalTransition FrameKind.InformationFrame
        Phase.NOT_CONNECTED) ∧
    (process_frame {} (Frame.information ⟨0, 0, false⟩)).1 ≠
      ({} : HdlcConnectionState) ∧
    (process_frame (process_frame {} (Frame.information ⟨0, 0, false⟩)).1
        (Frame.information ⟨0, 0, false⟩)).2 =
      some (LocalProtocolError.sendSequenceMismatch 0 1) ∧
    some (LocalProtocolError.sendSequenceMismatch 0 1) ≠
      some (LocalProtocolError.illegalTransition FrameKind.InformationFrame
        Phase.NOT_CONNECTED) := by
  decide

/-- Claim C7 (amended): for every starting state and every rejected frame
that did not pass Information sequence validation (any non-Information
frame, or an Information frame failing validation), the rejected call leaves
the state unchanged, and calling `process_frame` again with the same frame
produces the identical outcome — the quirk of claim C4 (an Information frame
passing validation but hitting a missing transition) is the one exception. -/
theorem C7_rejection_idempotent (s : HdlcConnectionState) (f : Frame)
    (herr : (process_frame s f).2 ≠ none)
    (hnv : Frame.kind f ≠ FrameKind.InformationFrame ∨ frameSeqOk s f = false) :
    (process_frame s f).1 = s ∧
    process_frame (process_frame s f).1 f = process_frame s f := by
  have hstate : (process_frame s f).1 = s := by
    cases f with
    | information g =>
        rcases pif_cases s g with ⟨hseq, hshape⟩ | ⟨hseq, e, hrr⟩
        · rcases hnv with hk | hk
          · exact absurd rfl hk
          · rw [hseq] at hk; exact absurd hk (by simp)
        · simp [process_frame, hrr]
    | setNormalResponseMode =>
        rcases transition_state_cases s FrameKind.SetNormalResponseModeFrame with
          ⟨_, htr⟩ | ⟨p, _, htr⟩ <;> simp_all [process_frame, Frame.kind]
    | unNumberedAcknowledgment =>
        rcases transition_state_cases s FrameKind.UnNumberedAcknowledgmentFrame with
          ⟨_, htr⟩ | ⟨p, _, htr⟩ <;> simp_all [process_frame, Frame.kind]
    | segmentedInformationRequest =>
        rcases transition_state_cases s FrameKind.SegmentedInformationRequestFrame with
          ⟨_, htr⟩ | ⟨p, _, htr⟩ <;> simp_all [process_frame, Frame.kind]
    | segmentedInformationResponse =>
        rcases transition_state_cases s FrameKind.SegmentedInformationResponseFrame with
          ⟨_, htr⟩ | ⟨p, _, htr⟩ <;> simp_all [process_frame, Frame.kind]
    | disconnect =>
        rcases transition_state_cases s FrameKind.DisconnectFrame with
          ⟨_, htr⟩ | ⟨p, _, htr⟩ <;> simp_all [process_frame, Frame.kind]
    | receiveReady =>
        rcases transition_state_cases s FrameKind.ReceiveReadyFrame with
          ⟨_, htr⟩ | ⟨p, _, htr⟩ <;> simp_all [process_frame, Frame.kind]
  exact ⟨hstate, by rw [hstate]⟩

theorem C7_rejection_idempotent_witness :
    (process_frame {} Frame.disconnect).1 = ({} : HdlcConnectionState) ∧
    process_frame (process_frame {} Frame.disconnect).1 Frame.disconnect =
      process_frame {} Frame.disconnect :=
  C7_rejection_idempotent {} Frame.disconnect (by decide) (Or.inl (by decide))

/-- Claim C8: if all four counters are in [0,7] before a call, they are in
[0,7] after any `process_frame` call (successful or failing); a counter at 7
wraps to 0 on a qualifying increment, and each single increment maps
`n` in [0,7] to `(n + 1) % 8`. -/
theorem C8_counters_bounded (s : HdlcConnectionState) (f : Frame)
    (h : countersBounded s) :
    countersBounded (process_frame s f).1 ∧
    wrapInc 7 = 0 ∧
    (∀ n, n ≤ 7 → wrapInc n = (n + 1) % 8) := by
  refine ⟨?_, by decide, ?_⟩
  · have key : ∀ t : HdlcConnectionState, countersBounded t →
        ∀ ft, countersBounded (_transition_state t ft).1 := by
      intro t ht ft
      rcases transition_state_cases t ft with ⟨_, htr⟩ | ⟨p, _, htr⟩ <;>
        simp_all [countersBounded, htr]
    obtain ⟨h1, h2, h3, h4⟩ := h
    cases f with
    | information g =>
        rcases pif_cases s g with ⟨hseq, hshape⟩ | ⟨hseq, e, hrr⟩
        · have hpf : process_frame s (Frame.information g) =
              _transition_state (_process_information_frame s g).1
                FrameKind.InformationFrame := by
            rcases hshape with ⟨hresp, heq⟩ | ⟨hresp, heq⟩ <;>
              simp [process_frame, heq]
          have hb : countersBounded (_process_information_frame s g).1 := by
            rcases hshape with ⟨hresp, heq⟩ | ⟨hresp, heq⟩
            · rw [heq]; exact ⟨wrapInc_le _, h2, h3, wrapInc_le _⟩
            · rw [heq]; exact ⟨h1, wrapInc_le _, wrapInc_le _, h4⟩
          rw [hpf]
          exact key _ hb _
        · have hpf : process_frame s (Frame.information g) = (s, some e) := by
            simp [process_frame, hrr]
          rw [hpf]
          exact ⟨h1, h2, h3, h4⟩
    | setNormalResponseMode => exact key s ⟨h1, h2, h3, h4⟩ _
    | unNumberedAcknowledgment => exact key s ⟨h1, h2, h3, h4⟩ _
    | segmentedInformationRequest => exact key s ⟨h1, h2, h3, h4⟩ _
    | segmentedInformationResponse => exact key s ⟨h1, h2, h3, h4⟩ _
    | disconnect => exact key s ⟨h1, h2, h3, h4⟩ _
    | receiveReady => exact key s ⟨h1, h2, h3, h4⟩ _
  · intro n hn
    simp only [wrapInc]
    split <;> omega

theorem C8_counters_bounded_witness :
    countersBounded (process_frame { server_rsn := 7, client_ssn := 7 }
      (Frame.information ⟨7, 0, true⟩)).1 ∧
    wrapInc 7 = 0 ∧ wrapInc 3 = (3 + 1) % 8 := by
  have h := C8_counters_bounded { server_rsn := 7, client_ssn := 7 }
    (Frame.information ⟨7, 0, true⟩) ⟨by decide, by decide, by decide, by decide⟩
  exact ⟨h.1, h.2.1, h.2.2 3 (by decide)⟩

/-- Claim C9: for every state and every frame whose kind is not
InformationFrame, `process_frame` leaves all four counters unchanged and
either succeeds or fails with the missing-transition error (never a
sequence-mismatch error), whether or not the transition exists. -/
theorem C9_non_information_counters_unchanged (s : HdlcConnectionState) (f : Frame)
    (h : Frame.kind f ≠ FrameKind.InformationFrame) :
    (process_frame s f).1.client_ssn = s.client_ssn ∧
    (process_frame s f).1.client_rsn = s.client_rsn ∧
    (process_frame s f).1.server_ssn = s.server_ssn ∧
    (process_frame s f).1.server_rsn = s.server_rsn ∧
    ((process_frame s f).2 = none ∨
     (process_frame s f).2 =
       some (LocalProtocolError.illegalTransition (Frame.kind f) s.current_state)) := by
  cases f with
  | information g => exact absurd rfl h
  | setNormalResponseMode =>
      rcases transition_state_cases s FrameKind.SetNormalResponseModeFrame with
        ⟨_, htr⟩ | ⟨p, _, htr⟩ <;> simp_all [process_frame, Frame.kind]
  | unNumberedAcknowledgment =>
      rcases transition_state_cases s FrameKind.UnNumberedAcknowledgmentFrame with
        ⟨_, htr⟩ | ⟨p, _, htr⟩ <;> simp_all [process_frame, Frame.kind]
  | segmentedInformationRequest =>
      rcases transition_state_cases s FrameKind.SegmentedInformationRequestFrame with
        ⟨_, htr⟩ | ⟨p, _, htr⟩ <;> simp_all [process_frame, Frame.kind]
  | segmentedInformationResponse =>
      rcases transition_state_cases s FrameKind.SegmentedInformationResponseFrame with
        ⟨_, htr⟩ | ⟨p, _, htr⟩ <;> simp_all [process_frame, Frame.kind]
  | disconnect =>
      rcases transition_state_cases s FrameKind.DisconnectFrame with
        ⟨_, htr⟩ | ⟨p, _, htr⟩ <;> simp_all [process_frame, Frame.kind]
  | receiveReady =>
      rcases transition_state_cases s FrameKind.ReceiveReadyFrame with
        ⟨_, htr⟩ | ⟨p, _, htr⟩ <;> simp_all [process_frame, Frame.kind]

theorem C9_non_information_counters_unchanged_witness :
    (process_frame {} Frame.setNormalResponseMode).1.client_ssn =
      ({} : HdlcConnectionState).client_ssn ∧
    ((process_frame {} Frame.setNormalResponseMode).2 = none ∨
     (process_frame {} Frame.setNormalResponseMode).2 =
       some (LocalProtocolError.illegalTransition
         FrameKind.SetNormalResponseModeFrame Phase.NOT_CONNECTED)) :=
  ⟨(C9_non_information_counters_unchanged {} Frame.setNormalResponseMode
      (by decide)).1,
   (C9_non_information_counters_unchanged {} Frame.setNormalResponseMode
      (by decide)).2.2.2.2⟩

/-- Claim C10: `process_frame` is deterministic and independent of the
logging side effect: two states agreeing on phase and all four counters (the
accumulated log may differ) produce, for the same frame, the same error
outcome and resulting states again agreeing on phase and all four counters. -/
theorem C10_deterministic_modulo_log (s t : HdlcConnectionState) (f : Frame)
    (h : obsEq s t) :
    obsEq (process_frame s f).1 (process_frame t f).1 ∧
    (process_frame s f).2 = (process_frame t f).2 := by
  have keyT : ∀ u v : HdlcConnectionState, obsEq u v → ∀ ft,
      obsEq (_transition_state u ft).1 (_transition_state v ft).1 ∧
      (_transition_state u ft).2 = (_transition_state v ft).2 := by
    intro u v huv ft
    obtain ⟨hcs, hca, hcb, hcc, hcd⟩ := huv
    rcases htab : HDLC_STATE_TRANSITIONS u.current_state ft with _ | p
    · have htab2 : HDLC_STATE_TRANSITIONS v.current_state ft = none := by
        rw [← hcs]; exact htab
      simp [transition_state_of_none htab, transition_state_of_none htab2,
        obsEq, hcs, hca, hcb, hcc, hcd]
    · have htab2 : HDLC_STATE_TRANSITIONS v.current_state ft = some p := by
        rw [← hcs]; exact htab
      simp [_transition_state, htab, htab2, obsEq, hcs, hca, hcb, hcc, hcd]
  have keyI : ∀ g : InformationFrame,
      obsEq (_process_information_frame s g).1 (_process_information_frame t g).1 ∧
      (_process_information_frame s g).2 = (_process_information_frame t g).2 := by
    intro g
    obtain ⟨hcs, hca, hcb, hcc, hcd⟩ := h
    simp only [_process_information_frame, hca, hcb, hcc, hcd]
    split
    · split
      · simp [obsEq, hcs, hca, hcb, hcc, hcd]
      · split <;>
          simp [obsEq, hcs, hca, hcb, hcc, hcd, _increment_server_rsn,
            _increment_server_ssn, _increment_client_rsn, _increment_client_ssn]
    · split
      · simp [obsEq, hcs, hca, hcb, hcc, hcd]
      · split <;>
          simp [obsEq, hcs, hca, hcb, hcc, hcd, _increment_server_rsn,
            _increment_server_ssn, _increment_client_rsn, _increment_client_ssn]
  cases f with
  | information g =>
      obtain ⟨hI1, hI2⟩ := keyI g
      rcases hps : _process_information_frame s g with ⟨s1, e1⟩
      rcases hpt : _process_information_frame t g with ⟨t1, e2⟩
      rw [hps, hpt] at hI1 hI2
      dsimp at hI1 hI2
      cases e1 with
      | none =>
          cases e2 with
          | some er => cases hI2
          | none =>
              have hk := keyT s1 t1 hI1 FrameKind.InformationFrame
              simpa [process_frame, hps, hpt] using hk
      | some er =>
          cases e2 with
          | none => cases hI2
          | some er2 =>
              injection hI2 with hee
              subst hee
              simp [process_frame, hps, hpt, hI1]
  | setNormalResponseMode => exact keyT s t h _
  | unNumberedAcknowledgment => exact keyT s t h _
  | segmentedInformationRequest => exact keyT s t h _
  | segmentedInformationResponse => exact keyT s t h _
  | disconnect => exact keyT s t h _
  | receiveReady => exact keyT s t h _

theorem C10_deterministic_modulo_log_witness :
    obsEq (process_frame {} Frame.setNormalResponseMode).1
      (process_frame { log := [(Phase.IDLE, Phase.IDLE)] }
        Frame.setNormalResponseMode).1 ∧
    (process_frame {} Frame.setNormalResponseMode).2 =
      (process_frame { log := [(Phase.IDLE, Phase.IDLE)] }
        Frame.setNormalResponseMode).2 :=
  C10_deterministic_modulo_log {} { log := [(Phase.IDLE, Phase.IDLE)] }
    Frame.setNormalResponseMode ⟨rfl, rfl, rfl, rfl, rfl⟩
